import Mathlib

/-!
Shallow embedding of the USB HID keyboard core in src/main.c of
hid-keyboard-zephyr, together with proofs about its event-folding
pipeline, report builder, and transport request handlers.

Conventions of the embedding:
* machine integers become Nat (all relevant values are small and
  non-negative; the one masked operation, the uint8 AND-NOT in the
  modifier clear, is written with an explicit 8-bit mask 255);
* the mutable module-level globals (modifier_state, pressed_keys with
  pressed_count, report, kb_duration, kb_ready) become fields of KBState,
  and each C function that mutates them becomes a function KBState to
  KBState;
* the pressed_keys array plus pressed_count pair is represented as the
  list of its first pressed_count entries (cells past pressed_count are
  never read by the C code);
* fallible buffer indexing is total via Option: kb_set_report reads
  buf[0] without any length check, so its embedding returns none when
  the buffer is empty (the out-of-bounds branch);
* log statements are modelled only where a claim mentions them
  (kb_set_protocol returns its log string).
-/

namespace Keyboard

/-- MAX_PRESSED_KEYS from main.c (6-key rollover capacity). -/
def MAX_PRESSED_KEYS : Nat := 6

/-- KB_REPORT_COUNT from main.c: size of the boot-protocol report. -/
def KB_REPORT_COUNT : Nat := 8

/-- Zephyr HID report type codes used by the handlers. -/
def HID_REPORT_TYPE_INPUT : Nat := 1

def HID_REPORT_TYPE_OUTPUT : Nat := 2

/-- Zephyr errno value for ENOTSUP, returned negated by kb_set_report. -/
def ENOTSUP : Int := 134

/-- One queued key event (struct kb_event): a 16-bit input code and the
32-bit transition value (nonzero means pressed). -/
structure KBEvent where
  code : Nat
  value : Int
deriving DecidableEq, Repr

/-- The input_to_hid_key table of main.c, written out entry by entry.
Index i is the Linux/Zephyr INPUT_KEY code, the value is the USB HID
usage code (0 means not mapped there; modifiers are deliberately 0).
The largest designated index is INPUT_KEY_COMPOSE = 127, so the C array
has 128 entries, with gaps zero-initialised. -/
def input_to_hid_key : List Nat :=
  [ 0,   -- 0   INPUT_KEY_RESERVED
    41,  -- 1   INPUT_KEY_ESC        -> HID_KEY_ESC
    30,  -- 2   INPUT_KEY_1
    31,  -- 3   INPUT_KEY_2
    32,  -- 4   INPUT_KEY_3
    33,  -- 5   INPUT_KEY_4
    34,  -- 6   INPUT_KEY_5
    35,  -- 7   INPUT_KEY_6
    36,  -- 8   INPUT_KEY_7
    37,  -- 9   INPUT_KEY_8
    38,  -- 10  INPUT_KEY_9
    39,  -- 11  INPUT_KEY_0
    45,  -- 12  INPUT_KEY_MINUS
    46,  -- 13  INPUT_KEY_EQUAL
    42,  -- 14  INPUT_KEY_BACKSPACE
    43,  -- 15  INPUT_KEY_TAB
    20,  -- 16  INPUT_KEY_Q
    26,  -- 17  INPUT_KEY_W
    8,   -- 18  INPUT_KEY_E
    21,  -- 19  INPUT_KEY_R
    23,  -- 20  INPUT_KEY_T
    28,  -- 21  INPUT_KEY_Y
    24,  -- 22  INPUT_KEY_U
    12,  -- 23  INPUT_KEY_I
    18,  -- 24  INPUT_KEY_O
    19,  -- 25  INPUT_KEY_P
    47,  -- 26  INPUT_KEY_LEFTBRACE
    48,  -- 27  INPUT_KEY_RIGHTBRACE
    40,  -- 28  INPUT_KEY_ENTER
    0,   -- 29  INPUT_KEY_LEFTCTRL (modifier)
    4,   -- 30  INPUT_KEY_A
    22,  -- 31  INPUT_KEY_S
    7,   -- 32  INPUT_KEY_D
    9,   -- 33  INPUT_KEY_F
    10,  -- 34  INPUT_KEY_G
    11,  -- 35  INPUT_KEY_H
    13,  -- 36  INPUT_KEY_J
    14,  -- 37  INPUT_KEY_K
    15,  -- 38  INPUT_KEY_L
    51,  -- 39  INPUT_KEY_SEMICOLON
    52,  -- 40  INPUT_KEY_APOSTROPHE
    53,  -- 41  INPUT_KEY_GRAVE
    0,   -- 42  INPUT_KEY_LEFTSHIFT (modifier)
    49,  -- 43  INPUT_KEY_BACKSLASH
    29,  -- 44  INPUT_KEY_Z
    27,  -- 45  INPUT_KEY_X
    6,   -- 46  INPUT_KEY_C
    25,  -- 47  INPUT_KEY_V
    5,   -- 48  INPUT_KEY_B
    17,  -- 49  INPUT_KEY_N
    16,  -- 50  INPUT_KEY_M
    54,  -- 51  INPUT_KEY_COMMA
    55,  -- 52  INPUT_KEY_DOT
    56,  -- 53  INPUT_KEY_SLASH
    0,   -- 54  INPUT_KEY_RIGHTSHIFT (modifier)
    85,  -- 55  INPUT_KEY_KPASTERISK
    0,   -- 56  INPUT_KEY_LEFTALT (modifier)
    44,  -- 57  INPUT_KEY_SPACE
    57,  -- 58  INPUT_KEY_CAPSLOCK
    58,  -- 59  INPUT_KEY_F1
    59,  -- 60  INPUT_KEY_F2
    60,  -- 61  INPUT_KEY_F3
    61,  -- 62  INPUT_KEY_F4
    62,  -- 63  INPUT_KEY_F5
    63,  -- 64  INPUT_KEY_F6
    64,  -- 65  INPUT_KEY_F7
    65,  -- 66  INPUT_KEY_F8
    66,  -- 67  INPUT_KEY_F9
    67,  -- 68  INPUT_KEY_F10
    83,  -- 69  INPUT_KEY_NUMLOCK
    71,  -- 70  INPUT_KEY_SCROLLLOCK
    95,  -- 71  INPUT_KEY_KP7
    96,  -- 72  INPUT_KEY_KP8
    97,  -- 73  INPUT_KEY_KP9
    86,  -- 74  INPUT_KEY_KPMINUS
    92,  -- 75  INPUT_KEY_KP4
    93,  -- 76  INPUT_KEY_KP5
    94,  -- 77  INPUT_KEY_KP6
    87,  -- 78  INPUT_KEY_KPPLUS
    89,  -- 79  INPUT_KEY_KP1
    90,  -- 80  INPUT_KEY_KP2
    91,  -- 81  INPUT_KEY_KP3
    98,  -- 82  INPUT_KEY_KP0
    99,  -- 83  INPUT_KEY_KPDOT (literal 99 in the source)
    0,   -- 84  (gap)
    0,   -- 85  (gap)
    0,   -- 86  (gap)
    68,  -- 87  INPUT_KEY_F11
    69,  -- 88  INPUT_KEY_F12
    0,   -- 89  (gap)
    0,   -- 90  (gap)
    0,   -- 91  (gap)
    0,   -- 92  (gap)
    0,   -- 93  (gap)
    0,   -- 94  (gap)
    0,   -- 95  (gap)
    88,  -- 96  INPUT_KEY_KPENTER
    0,   -- 97  INPUT_KEY_RIGHTCTRL (modifier)
    84,  -- 98  INPUT_KEY_KPSLASH
    70,  -- 99  INPUT_KEY_SYSRQ
    0,   -- 100 INPUT_KEY_RIGHTALT (modifier)
    0,   -- 101 (gap)
    74,  -- 102 INPUT_KEY_HOME
    82,  -- 103 INPUT_KEY_UP
    75,  -- 104 INPUT_KEY_PAGEUP
    80,  -- 105 INPUT_KEY_LEFT
    79,  -- 106 INPUT_KEY_RIGHT
    77,  -- 107 INPUT_KEY_END
    81,  -- 108 INPUT_KEY_DOWN
    78,  -- 109 INPUT_KEY_PAGEDOWN
    73,  -- 110 INPUT_KEY_INSERT
    76,  -- 111 INPUT_KEY_DELETE
    0,   -- 112 (gap)
    0,   -- 113 (gap)
    0,   -- 114 (gap)
    0,   -- 115 (gap)
    0,   -- 116 (gap)
    0,   -- 117 (gap)
    0,   -- 118 (gap)
    72,  -- 119 INPUT_KEY_PAUSE
    0,   -- 120 (gap)
    0,   -- 121 (gap)
    0,   -- 122 (gap)
    0,   -- 123 (gap)
    0,   -- 124 (gap)
    0,   -- 125 INPUT_KEY_LEFTMETA (modifier)
    0,   -- 126 INPUT_KEY_RIGHTMETA (modifier)
    101] -- 127 INPUT_KEY_COMPOSE (literal 101 in the source)

/-- get_modifier_bit from main.c: the switch over the eight modifier
input codes, returning the HID_KBD_MODIFIER bit, 0 otherwise. -/
def get_modifier_bit (input_code : Nat) : Nat :=
  if input_code = 29 then 1        -- INPUT_KEY_LEFTCTRL  -> LEFT_CTRL  0x01
  else if input_code = 42 then 2   -- INPUT_KEY_LEFTSHIFT -> LEFT_SHIFT 0x02
  else if input_code = 56 then 4   -- INPUT_KEY_LEFTALT   -> LEFT_ALT   0x04
  else if input_code = 125 then 8  -- INPUT_KEY_LEFTMETA  -> LEFT_UI    0x08
  else if input_code = 97 then 16  -- INPUT_KEY_RIGHTCTRL -> RIGHT_CTRL 0x10
  else if input_code = 54 then 32  -- INPUT_KEY_RIGHTSHIFT-> RIGHT_SHIFT 0x20
  else if input_code = 100 then 64 -- INPUT_KEY_RIGHTALT  -> RIGHT_ALT  0x40
  else if input_code = 126 then 128 -- INPUT_KEY_RIGHTMETA-> RIGHT_UI   0x80
  else 0

/-- input_to_hid from main.c: bounds-checked table lookup, 0 when the
input code is at or beyond the table size. -/
def input_to_hid (input_code : Nat) : Nat :=
  if input_code < input_to_hid_key.length then
    input_to_hid_key.getD input_code 0
  else
    0

/-- add_pressed_key from main.c, acting on the tracked-keys list:
linear scan for membership (idempotent success), append while fewer
than MAX_PRESSED_KEYS entries, otherwise reject (returns false). -/
def add_pressed_key (l : List Nat) (hid_key : Nat) : Bool × List Nat :=
  if hid_key ∈ l then (true, l)
  else if l.length < MAX_PRESSED_KEYS then (true, l ++ [hid_key])
  else (false, l)

/-- remove_pressed_key from main.c: remove the first matching entry and
shift the remaining entries left (compaction); no-op when absent. -/
def remove_pressed_key : List Nat → Nat → List Nat
  | [], _ => []
  | k :: ks, hid_key =>
    if k = hid_key then ks else k :: remove_pressed_key ks hid_key

/-- The module-level mutable globals of main.c gathered into one record:
modifier_state, the pressed_keys array together with pressed_count
(as a list), the built report buffer, kb_duration and kb_ready. -/
structure KBState where
  modifier_state : Nat
  pressed_keys : List Nat
  report : List Nat
  kb_duration : Nat
  kb_ready : Bool
deriving DecidableEq, Repr

/-- The 8 bytes that build_hid_report writes: modifier, reserved 0, then
the tracked keys in order into the first min(pressed_count, 6) slots of
a zeroed 6-slot area. -/
def report_bytes (s : KBState) : List Nat :=
  s.modifier_state :: 0 ::
    (s.pressed_keys.take MAX_PRESSED_KEYS ++
      List.replicate (MAX_PRESSED_KEYS - s.pressed_keys.length) 0)

/-- build_hid_report from main.c: overwrite the report buffer from the
current modifier and tracked-keys state. -/
def build_hid_report (s : KBState) : KBState :=
  { s with report := report_bytes s }

/-- process_key_event from main.c: modifier events set or clear a bit in
modifier_state (the clear is the uint8 AND with the complement, written
with the explicit 8-bit mask 255); mapped non-modifier events insert or
remove the usage code; unmapped events change nothing; in every case the
report is rebuilt at the end. -/
def process_key_event (s : KBState) (input_code : Nat) (pressed : Bool) :
    KBState :=
  build_hid_report
    (if get_modifier_bit input_code ≠ 0 then
      { s with modifier_state :=
          if pressed then s.modifier_state ||| get_modifier_bit input_code
          else s.modifier_state &&& (255 ^^^ get_modifier_bit input_code) }
    else if input_to_hid input_code ≠ 0 then
      (if pressed then
        { s with pressed_keys := (add_pressed_key s.pressed_keys (input_to_hid input_code)).2 }
      else
        { s with pressed_keys := remove_pressed_key s.pressed_keys (input_to_hid input_code) })
    else s)

/-- Initial values of the globals: zero-initialised static storage
(the UDC report buffer starts as 8 zero bytes). -/
def initState : KBState :=
  { modifier_state := 0
    pressed_keys := []
    report := List.replicate KB_REPORT_COUNT 0
    kb_duration := 0
    kb_ready := false }

/-- One consumer-loop fold of a dequeued event into the state, as the
main loop does: process_key_event with pressed = (value != 0). -/
def foldEvent (s : KBState) (e : KBEvent) : KBState :=
  process_key_event s e.code (e.value != 0)

/-- State after folding a whole event sequence starting from the
zero-initialised globals. -/
def foldEvents (es : List KBEvent) : KBState :=
  es.foldl foldEvent initState

/-- kb_iface_ready from main.c: record transport readiness. -/
def kb_iface_ready (s : KBState) (ready : Bool) : KBState :=
  { s with kb_ready := ready }

/-- kb_get_report from main.c. The result pairs the unchanged state with
the bytes copied into the callers buffer and the int return value: the
full report and length 8 when the type is Input and len is at least 8,
otherwise no bytes and 0 (the logged not-implemented path). -/
def kb_get_report (s : KBState) (ty rid len : Nat) :
    KBState × (List Nat × Int) :=
  if ty = HID_REPORT_TYPE_INPUT ∧ KB_REPORT_COUNT ≤ len then
    (s, (s.report, (KB_REPORT_COUNT : Int)))
  else
    (s, ([], 0))

/-- kb_set_report from main.c. A non-Output type returns -ENOTSUP with
no LED commands. For an Output report the code reads buf[0] with no
length check, so the embedding is Option-valued: none when the buffer
is empty (the out-of-bounds read), otherwise the list of
gpio_pin_set_dt commands (LED index, asserted iff bit i of buf[0] is
set, since BIT(i) selects bit i) together with return value 0. The C
loop also skips LEDs whose devicetree port is absent; the embedding
models all three LED lines as present. The function touches none of
the module globals, so it does not take the state. -/
def kb_set_report (ty rid len : Nat) (buf : List Nat) :
    Option (List (Nat × Bool) × Int) :=
  if ty ≠ HID_REPORT_TYPE_OUTPUT then
    some ([], -ENOTSUP)
  else
    match buf.get? 0 with
    | none => none
    | some b0 =>
      some ([(0, b0 &&& 1 != 0), (1, b0 &&& 2 != 0), (2, b0 &&& 4 != 0)], 0)

/-- kb_output_report from main.c: logs the buffer and forwards to
kb_set_report with type Output, passing len and buf through unchanged. -/
def kb_output_report (len : Nat) (buf : List Nat) :
    Option (List (Nat × Bool) × Int) :=
  kb_set_report HID_REPORT_TYPE_OUTPUT 0 len buf

/-- kb_set_idle from main.c: store the duration. -/
def kb_set_idle (s : KBState) (rid duration : Nat) : KBState :=
  { s with kb_duration := duration }

/-- kb_get_idle from main.c: echo the stored duration. -/
def kb_get_idle (s : KBState) (rid : Nat) : Nat :=
  s.kb_duration

/-- kb_set_protocol from main.c: the body only emits the log line; no
global is written. The embedding returns the unchanged state together
with the logged protocol name. -/
def kb_set_protocol (s : KBState) (proto : Nat) : KBState × String :=
  (s, if proto = 0 then "Boot Protocol" else "Report Protocol")

/-- Observable outcome of one consumer-loop iteration after the fold:
no transport interaction, a remote-wakeup request, or submission of a
report. -/
inductive LoopAction where
  | skip : LoopAction
  | wake : LoopAction
  | submit : List Nat → LoopAction
deriving DecidableEq, Repr

/-- One iteration of the main consumer loop of main.c, after
k_msgq_get has delivered event e. The event is processed
unconditionally; then: not ready means continue with no submission;
ready and suspended (with CONFIG_KEYBOARD_USBD_REMOTE_WAKEUP enabled,
modelled by wake_enabled) means continue, requesting a wakeup only for
a nonzero value; otherwise the report is submitted. suspended models
usbd_is_suspended at this iteration. -/
def loop_iter (wake_enabled suspended : Bool) (s : KBState) (e : KBEvent) :
    KBState × LoopAction :=
  let s1 := process_key_event s e.code (e.value != 0)
  if !s1.kb_ready then
    (s1, .skip)
  else if wake_enabled && suspended then
    (if e.value != 0 then (s1, .wake) else (s1, .skip))
  else
    (s1, .submit s1.report)

end Keyboard

set_option maxRecDepth 4000

namespace Keyboard

/-! Helper lemmas shared by the claim theorems. -/

lemma add_pressed_key_inv (l : List Nat) (c : Nat)
    (h6 : l.length ≤ MAX_PRESSED_KEYS) (hnd : l.Nodup) :
    (add_pressed_key l c).2.length ≤ MAX_PRESSED_KEYS ∧
      (add_pressed_key l c).2.Nodup := by
  unfold add_pressed_key
  split_ifs with hmem hlen
  · exact ⟨h6, hnd⟩
  · refine ⟨by simpa using hlen, ?_⟩
    refine hnd.append (List.nodup_singleton c) ?_
    intro a ha hb
    simp at hb
    subst hb
    exact hmem ha
  · exact ⟨h6, hnd⟩

lemma remove_pressed_key_sublist (l : List Nat) (c : Nat) :
    List.Sublist (remove_pressed_key l c) l := by
  induction l with
  | nil => simp [remove_pressed_key]
  | cons x xs ih =>
    unfold remove_pressed_key
    by_cases hx : x = c
    · rw [if_pos hx]
      exact List.sublist_cons_self x xs
    · rw [if_neg hx]
      exact ih.cons₂ x

lemma remove_pressed_key_of_not_mem (l : List Nat) (c : Nat) (h : c ∉ l) :
    remove_pressed_key l c = l := by
  induction l with
  | nil => rfl
  | cons x xs ih =>
    simp at h
    unfold remove_pressed_key
    rw [if_neg (fun hxc : x = c => h.1 hxc.symm), ih h.2]

lemma remove_pressed_key_append_singleton (l : List Nat) (c : Nat) (h : c ∉ l) :
    remove_pressed_key (l ++ [c]) c = l := by
  induction l with
  | nil => simp [remove_pressed_key]
  | cons x xs ih =>
    simp at h
    show (if x = c then xs ++ [c] else x :: remove_pressed_key (xs ++ [c]) c)
        = x :: xs
    rw [if_neg (fun hxc : x = c => h.1 hxc.symm), ih h.2]

lemma process_pressed_inv (s : KBState) (c : Nat) (p : Bool)
    (h6 : s.pressed_keys.length ≤ MAX_PRESSED_KEYS)
    (hnd : s.pressed_keys.Nodup) :
    (process_key_event s c p).pressed_keys.length ≤ MAX_PRESSED_KEYS ∧
      (process_key_event s c p).pressed_keys.Nodup := by
  unfold process_key_event build_hid_report
  split_ifs <;> dsimp only <;>
    first
      | exact ⟨h6, hnd⟩
      | exact add_pressed_key_inv _ _ h6 hnd
      | exact ⟨(remove_pressed_key_sublist _ _).length_le.trans h6,
          List.Nodup.sublist (remove_pressed_key_sublist _ _) hnd⟩

lemma foldl_rollover_inv (es : List KBEvent) (s : KBState)
    (h6 : s.pressed_keys.length ≤ MAX_PRESSED_KEYS)
    (hnd : s.pressed_keys.Nodup) :
    (es.foldl foldEvent s).pressed_keys.length ≤ MAX_PRESSED_KEYS ∧
      (es.foldl foldEvent s).pressed_keys.Nodup := by
  induction es generalizing s with
  | nil => exact ⟨h6, hnd⟩
  | cons e es ih =>
    have hstep := process_pressed_inv s e.code (e.value != 0) h6 hnd
    exact ih (foldEvent s e) hstep.1 hstep.2

lemma process_report_eq (s : KBState) (c : Nat) (p : Bool) :
    (process_key_event s c p).report
      = report_bytes (process_key_event s c p) := rfl

lemma process_ready_eq (s : KBState) (c : Nat) (p : Bool) :
    (process_key_event s c p).kb_ready = s.kb_ready := by
  unfold process_key_event build_hid_report
  split_ifs <;> rfl

lemma process_release_sublist (s : KBState) (c : Nat) :
    List.Sublist (process_key_event s c false).pressed_keys s.pressed_keys := by
  unfold process_key_event build_hid_report
  split_ifs <;> dsimp only <;>
    first
      | contradiction
      | exact List.Sublist.refl _
      | exact remove_pressed_key_sublist _ _

lemma process_pressed_keys_eq (s : KBState) (c : Nat) (p : Bool) :
    (process_key_event s c p).pressed_keys
      = if get_modifier_bit c ≠ 0 then s.pressed_keys
        else if input_to_hid c ≠ 0 then
          (if p then (add_pressed_key s.pressed_keys (input_to_hid c)).2
           else remove_pressed_key s.pressed_keys (input_to_hid c))
        else s.pressed_keys := by
  unfold process_key_event build_hid_report
  split_ifs <;> rfl

lemma process_modifier_eq (s : KBState) (c : Nat) (p : Bool) :
    (process_key_event s c p).modifier_state
      = if get_modifier_bit c ≠ 0 then
          (if p then s.modifier_state ||| get_modifier_bit c
           else s.modifier_state &&& (255 ^^^ get_modifier_bit c))
        else s.modifier_state := by
  unfold process_key_event build_hid_report
  split_ifs <;> rfl

/-- Claim C1: for every sequence of key press/release events folded into
the keyboard state, the tracked pressed usage codes have length at most
6 (MAX_PRESSED_KEYS) and never contain the same usage code twice. -/
theorem rollover_invariant (es : List KBEvent) :
    (foldEvents es).pressed_keys.length ≤ MAX_PRESSED_KEYS ∧
      (foldEvents es).pressed_keys.Nodup :=
  foldl_rollover_inv es initState (by decide) (by decide)

/-- Claim C2: after every fold of an event the built report is byte 0 the
modifier bitmask, byte 1 zero, then the tracked usage codes in insertion
order with all remaining slots zero; on a release the surviving codes
keep their relative order with no gaps (the new tracked list is a
sublist of the old one). -/
theorem report_layout (es : List KBEvent) (e : KBEvent) :
    (foldEvents (es ++ [e])).report
      = (foldEvents (es ++ [e])).modifier_state :: 0 ::
          ((foldEvents (es ++ [e])).pressed_keys ++
            List.replicate
              (MAX_PRESSED_KEYS - (foldEvents (es ++ [e])).pressed_keys.length) 0)
    ∧ (e.value = 0 →
        List.Sublist (foldEvents (es ++ [e])).pressed_keys
          (foldEvents es).pressed_keys) := by
  have hfold : foldEvents (es ++ [e]) = foldEvent (foldEvents es) e := by
    simp [foldEvents, List.foldl_append]
  have h6 : (foldEvents (es ++ [e])).pressed_keys.length ≤ MAX_PRESSED_KEYS :=
    (foldl_rollover_inv (es ++ [e]) initState (by decide) (by decide)).1
  constructor
  · have hrep : (foldEvents (es ++ [e])).report
        = report_bytes (foldEvents (es ++ [e])) := by
      rw [hfold]
      exact process_report_eq _ _ _
    rw [hrep]
    unfold report_bytes
    rw [List.take_of_length_le h6]
  · intro hv
    rw [hfold]
    show List.Sublist
      (process_key_event (foldEvents es) e.code (e.value != 0)).pressed_keys _
    have hfalse : (e.value != 0) = false := by simp [hv]
    rw [hfalse]
    exact process_release_sublist _ _

/-- Claim C2 witness: pressing A then S and releasing A leaves the
tracked codes a sublist of the previous ones (report compaction). -/
theorem report_layout_w :
    List.Sublist (foldEvents [⟨30, 1⟩, ⟨31, 1⟩, ⟨30, 0⟩]).pressed_keys
      (foldEvents [⟨30, 1⟩, ⟨31, 1⟩]).pressed_keys :=
  (report_layout [⟨30, 1⟩, ⟨31, 1⟩] ⟨30, 0⟩).2 rfl

/-- Claim C3 counterexample: from the reachable state after pressing A
(input code 30, usage code 4), an immediate press/release pair of the
same code does not return the rollover set to its prior content: the
duplicate press is idempotent, so the release removes the key. -/
theorem press_release_counterexample :
    (foldEvents [⟨30, 1⟩, ⟨30, 1⟩, ⟨30, 0⟩]).pressed_keys
      ≠ (foldEvents [⟨30, 1⟩]).pressed_keys := by decide

/-- Claim C3 amended: provided the usage code of the key is not already
tracked, folding a press of it immediately followed by its release
returns the rollover set to exactly its prior content, in every prior
state (so regardless of other interleaved distinct-code events). -/
theorem press_release_roundtrip (s : KBState) (code : Nat)
    (hmem : input_to_hid code ∉ s.pressed_keys) :
    (process_key_event (process_key_event s code true) code false).pressed_keys
      = s.pressed_keys := by
  have h1 := process_pressed_keys_eq s code true
  have h2 := process_pressed_keys_eq (process_key_event s code true) code false
  by_cases hm : get_modifier_bit code ≠ 0
  · simp only [if_pos hm] at h1 h2
    rw [h2, h1]
  · simp only [if_neg hm] at h1 h2
    by_cases hk : input_to_hid code ≠ 0
    · simp only [if_pos hk] at h1 h2
      simp at h1 h2
      rw [h2, h1]
      have hcase : (add_pressed_key s.pressed_keys (input_to_hid code)).2
            = s.pressed_keys ++ [input_to_hid code]
          ∨ (add_pressed_key s.pressed_keys (input_to_hid code)).2
            = s.pressed_keys := by
        unfold add_pressed_key
        rw [if_neg hmem]
        split_ifs <;> simp
      rcases hcase with h | h <;> rw [h]
      · exact remove_pressed_key_append_singleton _ _ hmem
      · exact remove_pressed_key_of_not_mem _ _ hmem
    · simp only [if_neg hk] at h1 h2
      rw [h2, h1]

/-- Claim C3 witness: pressing then releasing A from the initial state
returns the rollover set to empty. -/
theorem press_release_roundtrip_w :
    (process_key_event (process_key_event initState 30 true) 30 false).pressed_keys
      = initState.pressed_keys :=
  press_release_roundtrip initState 30 (by decide)

lemma land_zero_right (x : Nat) : x &&& 0 = 0 :=
  Nat.eq_of_testBit_eq fun i => by
    simp [Nat.testBit_land, Nat.zero_testBit]

lemma land_land_zero (x a b : Nat) (h : a &&& b = 0) : (x &&& a) &&& b = 0 := by
  rw [Nat.land_assoc, h, land_zero_right]

lemma gmb_mask (code : Nat) :
    (255 ^^^ get_modifier_bit code) &&& get_modifier_bit code = 0 := by
  unfold get_modifier_bit
  split_ifs <;> decide

/-- Claim C4 counterexample: in the reachable state where left-ctrl
(input code 29, modifier bit 1) is already held, folding a further press
and then a release of left-ctrl clears the bit, so it does not equal its
value before the pair. -/
theorem modifier_roundtrip_counterexample :
    (foldEvents [⟨29, 1⟩, ⟨29, 1⟩, ⟨29, 0⟩]).modifier_state &&& get_modifier_bit 29
      ≠ (foldEvents [⟨29, 1⟩]).modifier_state &&& get_modifier_bit 29 := by decide

/-- Claim C4 amended: provided the modifier bit for M is clear
beforehand, after folding a press of M and then a release of M the
ModifierMask bit for M equals its value before both operations (both
are clear); with the bit already set the pair always ends with it
cleared. -/
theorem modifier_press_release (s : KBState) (code : Nat)
    (hb : get_modifier_bit code ≠ 0)
    (hclear : s.modifier_state &&& get_modifier_bit code = 0) :
    (process_key_event (process_key_event s code true) code false).modifier_state
        &&& get_modifier_bit code
      = s.modifier_state &&& get_modifier_bit code := by
  have h1 := process_modifier_eq s code true
  have h2 := process_modifier_eq (process_key_event s code true) code false
  simp only [if_pos hb] at h1 h2
  simp at h1 h2
  rw [h2, h1, hclear]
  exact land_land_zero _ _ _ (gmb_mask code)

/-- Claim C4 witness: press and release of left-ctrl from the initial
state leaves its modifier bit equal to its initial (clear) value. -/
theorem modifier_press_release_w :
    (process_key_event (process_key_event initState 29 true) 29 false).modifier_state
        &&& get_modifier_bit 29
      = initState.modifier_state &&& get_modifier_bit 29 :=
  modifier_press_release initState 29 (by decide) (by decide)

/-- Claim C5 counterexample: with the interface ready, the device
suspended and remote wakeup enabled, a release event (value 0) makes the
loop skip submission entirely, whereas the claim (not Ready / Suspended
press / otherwise submit) demands submission of the rebuilt report in
this case. -/
theorem consumer_loop_counterexample :
    (loop_iter true true (kb_iface_ready initState true) ⟨30, 0⟩).2
        = LoopAction.skip
    ∧ LoopAction.skip
        ≠ LoopAction.submit
            ((loop_iter true true (kb_iface_ready initState true) ⟨30, 0⟩).1.report) := by
  constructor
  · decide
  · decide

/-- Claim C5 amended: each iteration folds the dequeued event and
rebuilds the report unconditionally; if the transport is not ready,
submission is skipped; if ready and suspended (remote wakeup enabled),
submission is skipped for that iteration and a wake request is issued
exactly when the event represents a press; if ready and not suspended,
the rebuilt report is submitted. -/
theorem consumer_loop_behavior (susp : Bool) (s : KBState) (e : KBEvent) :
    (loop_iter true susp s e).1 = process_key_event s e.code (e.value != 0)
    ∧ (s.kb_ready = false → (loop_iter true susp s e).2 = LoopAction.skip)
    ∧ (s.kb_ready = true → susp = true → e.value ≠ 0 →
        (loop_iter true susp s e).2 = LoopAction.wake)
    ∧ (s.kb_ready = true → susp = true → e.value = 0 →
        (loop_iter true susp s e).2 = LoopAction.skip)
    ∧ (s.kb_ready = true → susp = false →
        (loop_iter true susp s e).2
          = LoopAction.submit (process_key_event s e.code (e.value != 0)).report) := by
  have hready := process_ready_eq s e.code (e.value != 0)
  simp only [loop_iter]
  refine ⟨?_, ?_, ?_, ?_, ?_⟩
  · split_ifs <;> rfl
  · intro h
    simp [hready, h]
  · intro h hs hv
    have hv2 : (e.value != 0) = true := by simpa using hv
    rw [hv2] at hready
    simp [hready, h, hs, hv2]
  · intro h hs hv
    simp [hready, h, hs, hv]
  · intro h hs
    simp [hready, h, hs]

/-- Claim C5 witness: ready, suspended, press event: the loop issues a
wake request. -/
theorem consumer_loop_behavior_w :
    (loop_iter true true (kb_iface_ready initState true) ⟨30, 1⟩).2
      = LoopAction.wake :=
  (consumer_loop_behavior true (kb_iface_ready initState true) ⟨30, 1⟩).2.2.1
    rfl rfl (by decide)

/-- Claim C6: for an Input-typed get-report request the handler returns
the most recently built report with length 8 exactly when the requested
length is at least 8, returns no bytes and 0 otherwise, and never
changes the state. -/
theorem get_report_behavior (s : KBState) (rid len : Nat) :
    (kb_get_report s HID_REPORT_TYPE_INPUT rid len).1 = s
    ∧ ((kb_get_report s HID_REPORT_TYPE_INPUT rid len).2
          = (s.report, (KB_REPORT_COUNT : Int)) ↔ KB_REPORT_COUNT ≤ len)
    ∧ ((kb_get_report s HID_REPORT_TYPE_INPUT rid len).2
          = (([] : List Nat), (0 : Int)) ↔ ¬ KB_REPORT_COUNT ≤ len) := by
  unfold kb_get_report
  by_cases h : KB_REPORT_COUNT ≤ len
  · rw [if_pos ⟨rfl, h⟩]
    refine ⟨rfl, ⟨fun _ => h, fun _ => rfl⟩, ⟨?_, fun hn => absurd h hn⟩⟩
    intro heq
    have h8 : (KB_REPORT_COUNT : Int) = 0 := congrArg Prod.snd heq
    exact absurd h8 (by decide)
  · rw [if_neg (fun hc => h hc.2)]
    refine ⟨rfl, ⟨?_, fun hle => absurd hle h⟩, ⟨fun _ => h, fun _ => rfl⟩⟩
    intro heq
    have h8 : (0 : Int) = (KB_REPORT_COUNT : Int) := congrArg Prod.snd heq
    exact absurd h8 (by decide)

/-- Claim C6 witness: a request of length 8 on the initial state returns
the initial all-zero report with length 8. -/
theorem get_report_behavior_w :
    (kb_get_report initState HID_REPORT_TYPE_INPUT 0 8).2
      = (initState.report, (KB_REPORT_COUNT : Int)) :=
  (get_report_behavior initState 0 8).2.1.mpr (by decide)

/-- Claim C7 counterexample: no function of the post-call keyboard state
recovers the protocol mode passed to kb_set_protocol, because the
handler stores nothing: the state after mode 0 and after mode 1 is the
same. The claim that the stored protocol mode equals the argument is
therefore false. -/
theorem set_protocol_counterexample :
    ¬ ∃ stored : KBState → Nat,
        ∀ (s : KBState) (m : Nat), stored (kb_set_protocol s m).1 = m := by
  rintro ⟨f, hf⟩
  have h0 := hf initState 0
  have h1 := hf initState 1
  rw [show (kb_set_protocol initState 0).1 = initState from rfl] at h0
  rw [show (kb_set_protocol initState 1).1 = initState from rfl] at h1
  omega

/-- Claim C7 amended: kb_set_protocol records nothing: it only logs
whether the requested mode is boot or report and leaves the keyboard
state (and hence the report format) unchanged. -/
theorem set_protocol_noop (s : KBState) (m : Nat) :
    (kb_set_protocol s m).1 = s
    ∧ (kb_set_protocol s m).2
        = (if m = 0 then "Boot Protocol" else "Report Protocol") :=
  ⟨rfl, rfl⟩

/-- Claim C8: the key-code translation is total with a bounds check:
every identifier at or beyond the table size translates to 0 (Unmapped,
and is no modifier either), and folding any event whose identifier is
neither a modifier nor mapped leaves the (report-synchronised) state
completely unchanged. -/
theorem translate_total_unmapped_noop (code : Nat) (pressed : Bool) (s : KBState) :
    (input_to_hid_key.length ≤ code →
      input_to_hid code = 0 ∧ get_modifier_bit code = 0)
    ∧ (get_modifier_bit code = 0 → input_to_hid code = 0 →
        s.report = report_bytes s → process_key_event s code pressed = s) := by
  constructor
  · intro h
    have hlen : input_to_hid_key.length = 128 := by decide
    rw [hlen] at h
    constructor
    · unfold input_to_hid
      rw [if_neg (by rw [hlen]; omega)]
    · unfold get_modifier_bit
      split_ifs <;> omega
  · intro h1 h2 h3
    unfold process_key_event
    rw [if_neg (by simp [h1]), if_neg (by simp [h2])]
    unfold build_hid_report
    rw [← h3]

/-- Claim C8 witness: identifier 200 lies beyond the 128-entry table,
translates to Unmapped, and folding it from the initial state changes
nothing. -/
theorem translate_total_unmapped_noop_w :
    (input_to_hid 200 = 0 ∧ get_modifier_bit 200 = 0)
    ∧ process_key_event initState 200 true = initState :=
  ⟨(translate_total_unmapped_noop 200 true initState).1 (by decide),
   (translate_total_unmapped_noop 200 true initState).2
     (by decide) (by decide) (by decide)⟩

lemma land_pow_bne (n i : Nat) : (n &&& 2 ^ i != 0) = n.testBit i := by
  rw [Nat.and_two_pow]
  cases h : n.testBit i
  · simp
  · have h2 : (2 : Nat) ^ i ≠ 0 := Nat.ne_of_gt (Nat.pos_pow_of_pos i (by norm_num))
    simp [h, h2]

/-- Claim C9: the set-report handler forwards LED state iff the report
type is Output: LED i is driven by bit i of byte 0 for i = 0 NumLock,
1 CapsLock, 2 ScrollLock; any other type yields -ENOTSUP with no LED
command (and the handler touches no keyboard state at all). -/
theorem set_report_behavior (ty rid len b0 : Nat) (rest buf : List Nat) :
    (ty = HID_REPORT_TYPE_OUTPUT →
      kb_set_report ty rid len (b0 :: rest)
        = some ([(0, b0.testBit 0), (1, b0.testBit 1), (2, b0.testBit 2)], 0))
    ∧ (ty ≠ HID_REPORT_TYPE_OUTPUT →
        kb_set_report ty rid len buf = some ([], -ENOTSUP)) := by
  constructor
  · intro h
    unfold kb_set_report
    rw [if_neg (by simp [h])]
    have e0 : (b0 &&& 1 != 0) = b0.testBit 0 := land_pow_bne b0 0
    have e1 : (b0 &&& 2 != 0) = b0.testBit 1 := land_pow_bne b0 1
    have e2 : (b0 &&& 4 != 0) = b0.testBit 2 := land_pow_bne b0 2
    rw [show (b0 :: rest).get? 0 = some b0 from rfl]
    dsimp only
    rw [e0, e1, e2]
  · intro h
    unfold kb_set_report
    rw [if_pos h]

/-- Claim C9 witness: an Output report with byte 0 = 0x01 drives
NumLock on and CapsLock, ScrollLock off. -/
theorem set_report_behavior_w :
    kb_set_report HID_REPORT_TYPE_OUTPUT 0 1 [1]
      = some ([(0, true), (1, false), (2, false)], 0) :=
  ((set_report_behavior HID_REPORT_TYPE_OUTPUT 0 1 1 [] []).1 rfl).trans (by decide)

/-- Claim C10: for an Output report the handler reads byte 0 of the
buffer with no check against len, for every len including 0, so under
the Option-valued embedding of buffer indexing the out-of-bounds branch
(none) is reached by a zero-length Output report, both directly and
through the kb_output_report wrapper. -/
theorem output_report_unguarded (len : Nat) :
    kb_set_report HID_REPORT_TYPE_OUTPUT 0 len [] = none
    ∧ kb_output_report len [] = none :=
  ⟨rfl, rfl⟩

end Keyboard
